import Mathlib

/-!
Shallow embedding of the kvstore library (igorsobreira/kvstore).

The repository contains two historical variants of the same design:

* the legacy form (kvstore.go, memory/driver.go): the `Driver` interface has
  `Open(info) error` and the driver object itself is mutated into the live
  connection (`KVStore` wraps the driver);
* the separable form (the Conn-interface kvstore.go and memory driver): the
  `Driver` interface has `Open(info) (Conn, error)` and returns a fresh
  connection object (`KVStore` wraps the `Conn`).

Go byte slices are embedded as `List Nat`, Go `map[string][]byte` as an
association list with first-match lookup, insert-overwrite and delete-all
operations (Go maps have unique keys, so on every state built from the empty
map these coincide with the abstract map operations).  Go errors compared by
identity become an inductive `Err` with decidable equality; a Go panic in
`Register` becomes `Except.error` carrying the panic message.  Mutation of a
method receiver becomes explicit state passing.
-/

namespace Kvstore

/-- Go `[]byte`, a byte string. -/
abbrev Bytes := List Nat

/-- Errors that appear in the library, compared by identity in Go.
`notFound` embeds the sentinel `ErrNotFound = errors.New("kvstore: key not found")`;
`unknownDriver n` the error built by `New` via
`fmt.Errorf("kvstore: unknown driver %q (forgotten import?)", driverName)`;
`backend msg` an arbitrary backend-defined error with message `msg`
(for example `errors.New("open failed")` in the tests). -/
inductive Err where
  | notFound : Err
  | unknownDriver (name : String) : Err
  | backend (msg : String) : Err
deriving DecidableEq, Repr

/-- The message carried by each error.  `ErrNotFound`'s message is the literal
from `errors.New`; `unknownDriver`'s message follows `fmt.Errorf` with `%q`
modelled as plain double-quoting of the name. -/
def Err.message : Err → String
  | .notFound => "kvstore: key not found"
  | .unknownDriver n => "kvstore: unknown driver \"" ++ n ++ "\" (forgotten import?)"
  | .backend msg => msg

/-- Go map lookup `v, ok := m[k]`: first matching entry. -/
def lookupMap {β : Type _} : List (String × β) → String → Option β
  | [], _ => none
  | (k', v) :: rest, k => if k' = k then some v else lookupMap rest k

/-- Go map assignment `m[k] = v`: overwrite the entry if present, else append. -/
def mapInsert {β : Type _} : List (String × β) → String → β → List (String × β)
  | [], k, v => [(k, v)]
  | (k', v') :: rest, k, v =>
      if k' = k then (k, v) :: rest else (k', v') :: mapInsert rest k v

/-- Go builtin `delete(m, k)`: remove every entry for `k` (at most one on
states with unique keys, which is all states a Go map can be in). -/
def mapDelete {β : Type _} : List (String × β) → String → List (String × β)
  | [], _ => []
  | (k', v') :: rest, k =>
      if k' = k then mapDelete rest k else (k', v') :: mapDelete rest k

theorem lookupMap_mapInsert_self {β : Type _} (m : List (String × β)) (k : String) (v : β) :
    lookupMap (mapInsert m k v) k = some v := by
  induction m with
  | nil => simp [mapInsert, lookupMap]
  | cons p rest ih =>
      obtain ⟨k', v'⟩ := p
      by_cases h : k' = k
      · simp [mapInsert, h, lookupMap]
      · simp [mapInsert, h, lookupMap, ih]

theorem lookupMap_mapInsert_ne {β : Type _} (m : List (String × β)) (k k' : String) (v : β)
    (h : k' ≠ k) : lookupMap (mapInsert m k v) k' = lookupMap m k' := by
  induction m with
  | nil => simp [mapInsert, lookupMap, Ne.symm h]
  | cons p rest ih =>
      obtain ⟨k₀, v₀⟩ := p
      by_cases hk : k₀ = k
      · subst hk
        simp [mapInsert, lookupMap, Ne.symm h]
      · simp [mapInsert, hk, lookupMap, ih]

theorem lookupMap_mapDelete_self {β : Type _} (m : List (String × β)) (k : String) :
    lookupMap (mapDelete m k) k = none := by
  induction m with
  | nil => simp [mapDelete, lookupMap]
  | cons p rest ih =>
      obtain ⟨k₀, v₀⟩ := p
      by_cases hk : k₀ = k
      · simp [mapDelete, hk, ih]
      · simp [mapDelete, hk, lookupMap, ih]

theorem lookupMap_mapDelete_ne {β : Type _} (m : List (String × β)) (k k' : String)
    (h : k' ≠ k) : lookupMap (mapDelete m k) k' = lookupMap m k' := by
  induction m with
  | nil => simp [mapDelete]
  | cons p rest ih =>
      obtain ⟨k₀, v₀⟩ := p
      by_cases hk : k₀ = k
      · subst hk
        simp [mapDelete, lookupMap, Ne.symm h, ih]
      · simp [mapDelete, hk, lookupMap, ih]

theorem mapDelete_mapDelete {β : Type _} (m : List (String × β)) (k : String) :
    mapDelete (mapDelete m k) k = mapDelete m k := by
  induction m with
  | nil => simp [mapDelete]
  | cons p rest ih =>
      obtain ⟨k₀, v₀⟩ := p
      by_cases hk : k₀ = k
      · simp [mapDelete, hk, ih]
      · simp [mapDelete, hk, ih]

end Kvstore

namespace Kvstore

/-- The separable `Driver` interface: `Open(info string) (Conn, error)`.
A Go method may mutate its receiver (the mock driver in the tests records
the `info` it was called with), so `Open` is embedded in state-passing
style over a driver-state type `sigma`; `C` is the backend connection type. -/
structure Driver (σ C : Type) where
  openConn : String → σ → σ × Except Err C

/-- The process-wide `drivers` map, `map[string]Driver`. -/
abbrev Registry (σ C : Type) := List (String × Driver σ C)

/-- `KVStore` of the separable variant: wraps exactly one opened connection. -/
structure KVStore (C : Type) where
  conn : C

/-- Embeds `func New(driverName, driverInfo string) (*KVStore, error)`:
look the name up in `drivers`; if absent, fail with the unknown-driver
error; otherwise call the driver's `Open` with `driverInfo` and either
propagate its error unchanged or wrap the connection. -/
def New {σ C : Type} (drivers : Registry σ C) (driverName driverInfo : String) (s : σ) :
    σ × Except Err (KVStore C) :=
  match lookupMap drivers driverName with
  | none => (s, .error (.unknownDriver driverName))
  | some d =>
      let p := d.openConn driverInfo s
      match p.2 with
      | .error e => (p.1, .error e)
      | .ok conn => (p.1, .ok ⟨conn⟩)

/-- Embeds `func Register(name string, d Driver)`.  A nil interface value
becomes `none`; a Go `panic(msg)` becomes `Except.error msg`, thrown before
any write to the map in both panic cases. -/
def Register {σ C : Type} (drivers : Registry σ C) (name : String)
    (d : Option (Driver σ C)) : Except String (Registry σ C) :=
  match d with
  | none => .error "kvstore: Register driver is nil"
  | some drv =>
      if (lookupMap drivers name).isSome then
        .error ("kvstore: Register called twice for driver " ++ name)
      else
        .ok (mapInsert drivers name drv)

/-- The public operations that can touch the registry: `Register` and `New`. -/
inductive RegOp (σ C : Type) where
  | registerOp (name : String) (d : Option (Driver σ C))
  | newOp (name info : String)

/-- One public call acting on the world (registry, driver state).
`Register` may update the registry (or panic); `New` only reads the
registry (its body contains no write to `drivers`) and may mutate the
chosen driver's state through `Open`. -/
def worldStep {σ C : Type} (w : Registry σ C × σ) :
    RegOp σ C → Except String (Registry σ C × σ)
  | .registerOp name d => (Register w.1 name d).map fun r => (r, w.2)
  | .newOp name info => .ok (w.1, (New w.1 name info w.2).1)

/-- Run a sequence of public calls; a panic aborts the run. -/
def runOps {σ C : Type} (w : Registry σ C × σ) :
    List (RegOp σ C) → Except String (Registry σ C × σ)
  | [] => .ok w
  | op :: rest =>
      match worldStep w op with
      | .error e => .error e
      | .ok w' => runOps w' rest

/-- The mock driver of the package tests: its state is the list of `info`
strings its `Open` has been called with, and its result is dictated by `f`
(the tests preset `OpenErr` / `OpenConn`). -/
def mockDriver {C : Type} (f : String → Except Err C) : Driver (List String) C :=
  ⟨fun info log => (log ++ [info], f info)⟩

end Kvstore

namespace Memory

open Kvstore

/-- The separable in-memory backend connection (`type Conn struct` with a
`data map[string][]byte`); the `sync.RWMutex` only serialises concurrent
access and has no sequential effect. -/
structure Conn where
  data : List (String × Bytes)
deriving DecidableEq, Repr

/-- The separable in-memory backend driver, `type Driver struct{}`. -/
structure DriverSep where
deriving DecidableEq, Repr

/-- `func (d *Driver) Open(info string) (kvstore.Conn, error)`: returns a
fresh `Conn` with a new empty map; `info` is ignored. -/
def DriverSep.Open (_d : DriverSep) (_info : String) : Except Err Conn :=
  .ok ⟨[]⟩

/-- `func (c *Conn) Set(key string, value []byte) error`. -/
def Conn.Set (c : Conn) (key : String) (value : Bytes) : Conn × Except Err Unit :=
  (⟨mapInsert c.data key value⟩, .ok ())

/-- `func (c *Conn) Get(key string) (value []byte, err error)`: returns the
stored bytes, or `ErrNotFound` when the key is absent. -/
def Conn.Get (c : Conn) (key : String) : Except Err Bytes :=
  match lookupMap c.data key with
  | some v => .ok v
  | none => .error .notFound

/-- `func (c *Conn) Delete(key string) error`: removes the key, a no-op when
absent, and always returns nil. -/
def Conn.Delete (c : Conn) (key : String) : Conn × Except Err Unit :=
  (⟨mapDelete c.data key⟩, .ok ())

/-- `func (c *Conn) Close() error`: a no-op. -/
def Conn.Close (_c : Conn) : Except Err Unit :=
  .ok ()

/-- The legacy in-memory backend (`type DriverMemory struct` in
memory/driver.go): the driver object itself holds the map and is mutated
into the connection by `Open`. -/
structure DriverMemory where
  data : List (String × Bytes)
deriving DecidableEq, Repr

/-- `func (d *DriverMemory) Open(info string) error`: resets the receiver's
map to a new empty map; `info` is ignored. -/
def DriverMemory.Open (_d : DriverMemory) (_info : String) : DriverMemory × Except Err Unit :=
  (⟨[]⟩, .ok ())

/-- `func (d *DriverMemory) Set(key string, value []byte) error`. -/
def DriverMemory.Set (d : DriverMemory) (key : String) (value : Bytes) :
    DriverMemory × Except Err Unit :=
  (⟨mapInsert d.data key value⟩, .ok ())

/-- `func (d *DriverMemory) Get(key string) (value []byte, err error)`. -/
def DriverMemory.Get (d : DriverMemory) (key : String) : Except Err Bytes :=
  match lookupMap d.data key with
  | some v => .ok v
  | none => .error .notFound

/-- `func (d *DriverMemory) Delete(key string) error`. -/
def DriverMemory.Delete (d : DriverMemory) (key : String) : DriverMemory × Except Err Unit :=
  (⟨mapDelete d.data key⟩, .ok ())

/-- The separable memory driver as an entry for the registry, as installed
by `func init() { kvstore.Register("memory", &Driver{}) }`:
stateless (`Unit` driver state), `Open` returns a fresh empty connection. -/
def memoryDriver : Kvstore.Driver Unit Conn :=
  ⟨fun info s => (s, DriverSep.Open ⟨⟩ info)⟩

end Memory

/-- C1: on the in-memory backend (both the legacy `DriverMemory` and the
separable `Conn` variant), for every key `k` with `0 < len(k) ≤ 256` bytes
and values of length at most 1 MiB, `Set k v` followed by `Get k` returns
exactly `v` byte-for-byte, and `Set k v1` then `Set k v2` then `Get k`
returns exactly `v2`: the last value set wins, unconditionally overwriting. -/
theorem memory_set_get_roundtrip_and_overwrite
    (d : Memory.DriverMemory) (c : Memory.Conn) (k : String) (v v1 v2 : Kvstore.Bytes)
    (hk0 : 0 < k.utf8ByteSize) (hk : k.utf8ByteSize ≤ 256)
    (hv : v.length ≤ 1048576) (hv1 : v1.length ≤ 1048576) (hv2 : v2.length ≤ 1048576) :
    ((d.Set k v).1).Get k = .ok v
    ∧ (((d.Set k v1).1.Set k v2).1).Get k = .ok v2
    ∧ ((c.Set k v).1).Get k = .ok v
    ∧ (((c.Set k v1).1.Set k v2).1).Get k = .ok v2 := by
  refine ⟨?_, ?_, ?_, ?_⟩ <;>
    simp [Memory.DriverMemory.Set, Memory.DriverMemory.Get,
      Memory.Conn.Set, Memory.Conn.Get, Kvstore.lookupMap_mapInsert_self]

theorem memory_set_get_roundtrip_and_overwrite_witness :
    (((Memory.DriverMemory.mk []).Set "key1" [118, 97]).1).Get "key1" = .ok [118, 97]
    ∧ ((((Memory.DriverMemory.mk []).Set "key1" [1]).1.Set "key1" [2]).1).Get "key1" = .ok [2]
    ∧ (((Memory.Conn.mk []).Set "key1" [118, 97]).1).Get "key1" = .ok [118, 97]
    ∧ ((((Memory.Conn.mk []).Set "key1" [1]).1.Set "key1" [2]).1).Get "key1" = .ok [2] :=
  memory_set_get_roundtrip_and_overwrite ⟨[]⟩ ⟨[]⟩ "key1" [118, 97] [1] [2]
    (by decide) (by decide) (by decide) (by decide) (by decide)

/-- C2: on the in-memory backend, `Get k` fails with exactly the `ErrNotFound`
sentinel whenever `k` is absent — on any state where the map has no entry for
`k`, on a freshly opened store, and after `Set k v` then `Delete k`; when `k`
is present, `Get k` succeeds with the stored bytes; and the sentinel is
distinct from every other error of the library (identity comparison). -/
theorem memory_get_absent_notFound_sentinel :
    (∀ (d : Memory.DriverMemory) (k : String),
        Kvstore.lookupMap d.data k = none → d.Get k = .error .notFound)
    ∧ (∀ (d : Memory.DriverMemory) (info k : String),
        ((d.Open info).1).Get k = .error .notFound)
    ∧ (∀ (d : Memory.DriverMemory) (k : String) (v : Kvstore.Bytes),
        ((((d.Set k v).1).Delete k).1).Get k = .error .notFound)
    ∧ (∀ (d : Memory.DriverMemory) (k : String) (v : Kvstore.Bytes),
        Kvstore.lookupMap d.data k = some v → d.Get k = .ok v)
    ∧ (∀ (n m : String),
        Kvstore.Err.notFound ≠ Kvstore.Err.unknownDriver n
        ∧ Kvstore.Err.notFound ≠ Kvstore.Err.backend m) := by
  refine ⟨?_, ?_, ?_, ?_, ?_⟩
  · intro d k h
    simp [Memory.DriverMemory.Get, h]
  · intro d info k
    simp [Memory.DriverMemory.Open, Memory.DriverMemory.Get, Kvstore.lookupMap]
  · intro d k v
    simp [Memory.DriverMemory.Set, Memory.DriverMemory.Delete, Memory.DriverMemory.Get,
      Kvstore.lookupMap_mapDelete_self]
  · intro d k v h
    simp [Memory.DriverMemory.Get, h]
  · intro n m
    exact ⟨Kvstore.Err.noConfusion, Kvstore.Err.noConfusion⟩

theorem memory_get_absent_notFound_sentinel_witness :
    (Memory.DriverMemory.mk []).Get "foo" = .error .notFound
    ∧ (Memory.DriverMemory.mk [("foo", [98, 97, 114])]).Get "foo" = .ok [98, 97, 114] :=
  ⟨memory_get_absent_notFound_sentinel.1 ⟨[]⟩ "foo" (by decide),
   memory_get_absent_notFound_sentinel.2.2.2.1 ⟨[("foo", [98, 97, 114])]⟩ "foo"
     [98, 97, 114] (by decide)⟩

/-- C7: on the in-memory backend (both variants), `Delete` is total and
idempotent: it returns success on every state (in particular when the key is
absent), it removes the named key when present, and deleting twice leaves the
store in the same state as deleting once. -/
theorem memory_delete_idempotent_and_total :
    (∀ (c : Memory.Conn) (k : String), (c.Delete k).2 = .ok ())
    ∧ (∀ (c : Memory.Conn) (k : String), Kvstore.lookupMap ((c.Delete k).1).data k = none)
    ∧ (∀ (c : Memory.Conn) (k : String), ((c.Delete k).1.Delete k).1 = (c.Delete k).1)
    ∧ (∀ (d : Memory.DriverMemory) (k : String), (d.Delete k).2 = .ok ())
    ∧ (∀ (d : Memory.DriverMemory) (k : String),
        Kvstore.lookupMap ((d.Delete k).1).data k = none)
    ∧ (∀ (d : Memory.DriverMemory) (k : String),
        ((d.Delete k).1.Delete k).1 = (d.Delete k).1) := by
  refine ⟨?_, ?_, ?_, ?_, ?_, ?_⟩ <;>
    intro x k <;>
    simp [Memory.Conn.Delete, Memory.DriverMemory.Delete,
      Kvstore.lookupMap_mapDelete_self, Kvstore.mapDelete_mapDelete]

/-- C10: frame property of the in-memory backend (both variants): for every
other key `k' ≠ k`, `Set k v` and `Delete k` leave the result of `Get k'`
unchanged — each mutating operation touches exactly the one key it names. -/
theorem memory_frame_property
    (c : Memory.Conn) (d : Memory.DriverMemory) (k k' : String) (v : Kvstore.Bytes)
    (h : k' ≠ k) :
    ((c.Set k v).1).Get k' = c.Get k'
    ∧ ((c.Delete k).1).Get k' = c.Get k'
    ∧ ((d.Set k v).1).Get k' = d.Get k'
    ∧ ((d.Delete k).1).Get k' = d.Get k' := by
  refine ⟨?_, ?_, ?_, ?_⟩ <;>
    simp [Memory.Conn.Set, Memory.Conn.Get, Memory.Conn.Delete,
      Memory.DriverMemory.Set, Memory.DriverMemory.Get, Memory.DriverMemory.Delete,
      Kvstore.lookupMap_mapInsert_ne _ _ _ _ h, Kvstore.lookupMap_mapDelete_ne _ _ _ h]

theorem memory_frame_property_witness :
    (((Memory.Conn.mk [("a", [1])]).Set "b" [2]).1).Get "a" = (Memory.Conn.mk [("a", [1])]).Get "a"
    ∧ (((Memory.Conn.mk [("a", [1])]).Delete "b").1).Get "a" = (Memory.Conn.mk [("a", [1])]).Get "a"
    ∧ (((Memory.DriverMemory.mk [("a", [1])]).Set "b" [2]).1).Get "a"
        = (Memory.DriverMemory.mk [("a", [1])]).Get "a"
    ∧ (((Memory.DriverMemory.mk [("a", [1])]).Delete "b").1).Get "a"
        = (Memory.DriverMemory.mk [("a", [1])]).Get "a" :=
  memory_frame_property ⟨[("a", [1])]⟩ ⟨[("a", [1])]⟩ "b" "a" [2] (by decide)

/-- C3: for every backend name `n` with no registered factory and every
config `c`, `New n c` returns an error (not a store) identifying `n` as an
unknown driver — the error's message contains `n` — and both the registry
and the existing driver state are left unchanged. -/
theorem New_unknown_driver_error {σ C : Type} (regs : Kvstore.Registry σ C)
    (n c : String) (s : σ) (h : Kvstore.lookupMap regs n = none) :
    Kvstore.New regs n c s = (s, .error (.unknownDriver n))
    ∧ (∃ pre suf, (Kvstore.Err.unknownDriver n).message.data = pre ++ n.data ++ suf)
    ∧ Kvstore.worldStep (regs, s) (Kvstore.RegOp.newOp n c) = .ok (regs, s) := by
  refine ⟨?_, ?_, ?_⟩
  · simp [Kvstore.New, h]
  · refine ⟨("kvstore: unknown driver \"").data, ("\" (forgotten import?)").data, ?_⟩
    simp [Kvstore.Err.message, String.data_append]
  · simp [Kvstore.worldStep, Kvstore.New, h]

theorem New_unknown_driver_error_witness :
    Kvstore.New ([] : Kvstore.Registry Unit Unit) "what" "" ()
      = ((), .error (.unknownDriver "what"))
    ∧ (∃ pre suf, (Kvstore.Err.unknownDriver "what").message.data
        = pre ++ ("what").data ++ suf)
    ∧ Kvstore.worldStep (([] : Kvstore.Registry Unit Unit), ())
        (Kvstore.RegOp.newOp "what" "") = .ok ([], ()) :=
  New_unknown_driver_error [] "what" "" () rfl

/-- C4: for every registered name `n` bound to an instrumented factory (the
mock driver, whose state logs each `info` its `Open` receives) and every
config `c`, `New n c` invokes the factory's `Open` exactly once, passing
exactly `c` (the log grows by the single entry `c`); if `Open` returns an
error it is propagated as that exact error value, unwrapped, and no store is
returned; if `Open` succeeds, `New` returns a store wrapping the opened
connection. -/
theorem New_invokes_open_exactly_once {C : Type}
    (regs : Kvstore.Registry (List String) C) (n c : String)
    (f : String → Except Kvstore.Err C) (log : List String)
    (h : Kvstore.lookupMap regs n = some (Kvstore.mockDriver f)) :
    Kvstore.New regs n c log
      = (log ++ [c],
         match f c with
         | .error e => .error e
         | .ok conn => .ok ⟨conn⟩) := by
  simp only [Kvstore.New, h, Kvstore.mockDriver]
  cases hfc : f c <;> simp [hfc]

theorem New_invokes_open_exactly_once_witness :
    Kvstore.New
        [("mock", Kvstore.mockDriver
            (fun _ => (.error (.backend "open failed") : Except Kvstore.Err Unit)))]
        "mock" "info" []
      = (["info"], .error (.backend "open failed")) :=
  New_invokes_open_exactly_once _ "mock" "info"
    (fun _ => (.error (.backend "open failed") : Except Kvstore.Err Unit)) [] rfl

/-- C5: `Register name d` panics in exactly two cases — when the driver is
nil (whatever the name) and when the name already has a registered driver —
and in every other case it inserts the mapping and returns normally. -/
theorem Register_panics_exactly_nil_or_duplicate {σ C : Type}
    (regs : Kvstore.Registry σ C) (name : String) (d : Option (Kvstore.Driver σ C)) :
    (d = none →
        Kvstore.Register regs name d = .error "kvstore: Register driver is nil")
    ∧ (∀ drv, d = some drv → (Kvstore.lookupMap regs name).isSome = true →
        Kvstore.Register regs name d
          = .error ("kvstore: Register called twice for driver " ++ name))
    ∧ (∀ drv, d = some drv → ¬ (Kvstore.lookupMap regs name).isSome = true →
        Kvstore.Register regs name d = .ok (Kvstore.mapInsert regs name drv))
    ∧ ((∃ msg, Kvstore.Register regs name d = .error msg)
        ↔ d = none ∨ (Kvstore.lookupMap regs name).isSome = true) := by
  refine ⟨?_, ?_, ?_, ?_⟩
  · rintro rfl
    simp [Kvstore.Register]
  · rintro drv rfl hdup
    simp [Kvstore.Register, hdup]
  · rintro drv rfl hdup
    simp [Kvstore.Register, hdup]
  · constructor
    · rintro ⟨msg, hmsg⟩
      cases d with
      | none => exact Or.inl rfl
      | some drv =>
          by_cases hdup : (Kvstore.lookupMap regs name).isSome = true
          · exact Or.inr hdup
          · simp [Kvstore.Register, hdup] at hmsg
    · rintro (rfl | hdup)
      · exact ⟨_, rfl⟩
      · cases d with
        | none => exact ⟨_, rfl⟩
        | some drv =>
            refine ⟨"kvstore: Register called twice for driver " ++ name, ?_⟩
            simp [Kvstore.Register, hdup]

theorem Register_panics_exactly_nil_or_duplicate_witness :
    Kvstore.Register ([] : Kvstore.Registry (List String) Unit) "mock" none
      = .error "kvstore: Register driver is nil"
    ∧ Kvstore.Register
        [("mock", Kvstore.mockDriver (fun _ => (.ok () : Except Kvstore.Err Unit)))]
        "mock" (some (Kvstore.mockDriver (fun _ => .ok ())))
      = .error ("kvstore: Register called twice for driver " ++ "mock")
    ∧ Kvstore.Register ([] : Kvstore.Registry (List String) Unit) "mock"
        (some (Kvstore.mockDriver (fun _ => .ok ())))
      = .ok [("mock", Kvstore.mockDriver (fun _ => .ok ()))] :=
  ⟨(Register_panics_exactly_nil_or_duplicate [] "mock" none).1 rfl,
   (Register_panics_exactly_nil_or_duplicate _ "mock" _).2.1 _ rfl rfl,
   (Register_panics_exactly_nil_or_duplicate [] "mock" _).2.2.1 _ rfl (by decide)⟩

/-- Helper: a successful `Register` call preserves every existing mapping
(a duplicate name panics before writing; a fresh name only appends). -/
theorem Register_preserves_existing {σ C : Type}
    (regs regs' : Kvstore.Registry σ C) (m : String) (d : Option (Kvstore.Driver σ C))
    (n : String) (f : Kvstore.Driver σ C)
    (h : Kvstore.lookupMap regs n = some f)
    (hr : Kvstore.Register regs m d = .ok regs') :
    Kvstore.lookupMap regs' n = some f := by
  cases d with
  | none => simp [Kvstore.Register] at hr
  | some drv =>
      by_cases hdup : (Kvstore.lookupMap regs m).isSome = true
      · simp [Kvstore.Register, hdup] at hr
      · simp [Kvstore.Register, hdup] at hr
        subst hr
        by_cases hnm : n = m
        · subst hnm
          rw [h] at hdup
          simp at hdup
        · rw [Kvstore.lookupMap_mapInsert_ne regs m n drv hnm]
          exact h

/-- C6: the registry mapping is insert-only: across every sequence of public
`Register` and `New` calls (a panic aborting the run), once a name `n` maps
to a factory `f` it maps to `f` in every later reachable state — `Register`
on an existing name panics before writing and `New` never writes. -/
theorem registry_insert_only {σ C : Type} (ops : List (Kvstore.RegOp σ C))
    (w w' : Kvstore.Registry σ C × σ) (n : String) (f : Kvstore.Driver σ C)
    (h : Kvstore.lookupMap w.1 n = some f)
    (hrun : Kvstore.runOps w ops = .ok w') :
    Kvstore.lookupMap w'.1 n = some f := by
  induction ops generalizing w with
  | nil =>
      simp [Kvstore.runOps] at hrun
      rw [← hrun]
      exact h
  | cons op rest ih =>
      simp only [Kvstore.runOps] at hrun
      cases hop : Kvstore.worldStep w op with
      | error e => rw [hop] at hrun; exact absurd hrun (by simp)
      | ok w₁ =>
          rw [hop] at hrun
          refine ih w₁ ?_ hrun
          cases op with
          | newOp name info =>
              simp only [Kvstore.worldStep, Except.ok.injEq] at hop
              rw [← hop]
              exact h
          | registerOp name d =>
              simp only [Kvstore.worldStep] at hop
              cases hreg : Kvstore.Register w.1 name d with
              | error e => rw [hreg] at hop; simp [Except.map] at hop
              | ok regs' =>
                  rw [hreg] at hop
                  simp only [Except.map, Except.ok.injEq] at hop
                  rw [← hop]
                  exact Register_preserves_existing w.1 regs' name d n f h hreg

theorem registry_insert_only_witness :
    Kvstore.lookupMap
      [("m", Kvstore.mockDriver (fun _ => (.ok () : Except Kvstore.Err Unit))),
       ("k", Kvstore.mockDriver (fun _ => (.ok () : Except Kvstore.Err Unit)))] "m"
      = some (Kvstore.mockDriver (fun _ => .ok ())) :=
  registry_insert_only
    [Kvstore.RegOp.newOp "m" "c",
     Kvstore.RegOp.registerOp "k"
       (some (Kvstore.mockDriver (fun _ => .ok ())))]
    ([("m", Kvstore.mockDriver (fun _ => .ok ()))], ([] : List String))
    ([("m", Kvstore.mockDriver (fun _ => .ok ())),
      ("k", Kvstore.mockDriver (fun _ => .ok ()))], ["c"])
    "m" (Kvstore.mockDriver (fun _ => .ok ())) rfl rfl

/-- A single store operation after open: the Set/Get/Delete alphabet. -/
inductive KVOp where
  | setOp (key : String) (value : Kvstore.Bytes)
  | getOp (key : String)
  | delOp (key : String)
deriving Repr

/-- The observable outcome of one store operation. -/
inductive KVResult where
  | unitResult : Except Kvstore.Err Unit → KVResult
  | bytesResult : Except Kvstore.Err Kvstore.Bytes → KVResult
deriving Repr

/-- Run one operation on a separable-variant connection. -/
def Memory.Conn.runOp (c : Memory.Conn) : KVOp → Memory.Conn × KVResult
  | .setOp k v => ((c.Set k v).1, .unitResult (c.Set k v).2)
  | .getOp k => (c, .bytesResult (c.Get k))
  | .delOp k => ((c.Delete k).1, .unitResult (c.Delete k).2)

/-- Run a list of operations on a separable-variant connection. -/
def Memory.Conn.runList (c : Memory.Conn) : List KVOp → Memory.Conn × List KVResult
  | [] => (c, [])
  | op :: rest =>
      let p := c.runOp op
      let q := p.1.runList rest
      (q.1, p.2 :: q.2)

/-- Run one operation on a legacy-variant driver-as-connection. -/
def Memory.DriverMemory.runOp (d : Memory.DriverMemory) :
    KVOp → Memory.DriverMemory × KVResult
  | .setOp k v => ((d.Set k v).1, .unitResult (d.Set k v).2)
  | .getOp k => (d, .bytesResult (d.Get k))
  | .delOp k => ((d.Delete k).1, .unitResult (d.Delete k).2)

/-- Run a list of operations on a legacy-variant driver-as-connection. -/
def Memory.DriverMemory.runList (d : Memory.DriverMemory) :
    List KVOp → Memory.DriverMemory × List KVResult
  | [] => (d, [])
  | op :: rest =>
      let p := d.runOp op
      let q := p.1.runList rest
      (q.1, p.2 :: q.2)

/-- Helper: from any common map state, the legacy driver-as-connection and the
separable connection produce identical results and identical map states on
every operation sequence. -/
theorem memory_runList_agree (ops : List KVOp) (m : List (String × Kvstore.Bytes)) :
    ((Memory.DriverMemory.mk m).runList ops).2 = ((Memory.Conn.mk m).runList ops).2
    ∧ ((Memory.DriverMemory.mk m).runList ops).1.data
        = ((Memory.Conn.mk m).runList ops).1.data := by
  induction ops generalizing m with
  | nil => simp [Memory.DriverMemory.runList, Memory.Conn.runList]
  | cons op rest ih =>
      cases op with
      | setOp k v =>
          simpa [Memory.DriverMemory.runList, Memory.Conn.runList,
            Memory.DriverMemory.runOp, Memory.Conn.runOp,
            Memory.DriverMemory.Set, Memory.Conn.Set,
            Memory.DriverMemory.Get, Memory.Conn.Get]
            using ih (Kvstore.mapInsert m k v)
      | getOp k =>
          simpa [Memory.DriverMemory.runList, Memory.Conn.runList,
            Memory.DriverMemory.runOp, Memory.Conn.runOp,
            Memory.DriverMemory.Get, Memory.Conn.Get]
            using ih m
      | delOp k =>
          simpa [Memory.DriverMemory.runList, Memory.Conn.runList,
            Memory.DriverMemory.runOp, Memory.Conn.runOp,
            Memory.DriverMemory.Delete, Memory.Conn.Delete]
            using ih (Kvstore.mapDelete m k)

/-- C9: the two historical backend-contract shapes are observationally
equivalent for a single connection: the separable driver's `Open` yields the
fresh connection `Conn.mk []`, the legacy driver's `Open` mutates the driver
into the same fresh state, and from there every sequence of Set/Get/Delete
operations produces identical results (and identical map states) on both. -/
theorem legacy_separable_single_connection_equiv (ops : List KVOp) :
    Memory.DriverSep.Open ⟨⟩ "" = .ok (Memory.Conn.mk [])
    ∧ (((Memory.DriverMemory.mk []).Open "").1.runList ops).2
        = ((Memory.Conn.mk []).runList ops).2
    ∧ (((Memory.DriverMemory.mk []).Open "").1.runList ops).1.data
        = ((Memory.Conn.mk []).runList ops).1.data := by
  refine ⟨rfl, ?_, ?_⟩
  · exact (memory_runList_agree ops []).1
  · exact (memory_runList_agree ops []).2

/-- The C8 scenario played on the legacy memory backend.  There,
`init` registers the single shared `&DriverMemory` instance and every
`New("memory", "")` both calls `Open` on that same instance (resetting its
map) and returns a `KVStore` wrapping that same instance, so stores A and B
alias one state: create A, A.Set("foo", "bar"), create B — threading the one
shared driver state. -/
def Memory.legacySharedAfterB : Memory.DriverMemory :=
  ((((Memory.DriverMemory.mk []).Open "").1.Set "foo" [98, 97, 114]).1.Open "").1

/-- C8 counterexample: on the legacy memory backend the claimed scenario
fails — after store B is created, store A's `Get "foo"` (which reads the
shared driver state `legacySharedAfterB`) returns the NotFound error, not
`"bar"`; the second `Open` wiped A's data. -/
theorem memory_instance_independence_counterexample :
    Memory.legacySharedAfterB.Get "foo" = .error .notFound
    ∧ Memory.legacySharedAfterB.Get "foo" ≠ .ok [98, 97, 114] := by
  constructor
  · rfl
  · intro hcontra
    simp [Memory.legacySharedAfterB, Memory.DriverMemory.Open, Memory.DriverMemory.Set,
      Memory.DriverMemory.Get, Kvstore.lookupMap] at hcontra

/-- C8 amended: on the separable memory backend instances are independent in
both directions — each `New("memory", "")` yields a store wrapping a fresh
empty connection, A's connection after `Set("foo", "bar")` still answers
`Get "foo" = "bar"` whatever else is created, and B's fresh connection does
not see `"foo"`.  On the legacy memory backend only the forward half holds:
B's `Get "foo"` fails NotFound, but because B's creation re-opened the single
shared `DriverMemory`, A's `Get "foo"` also fails NotFound instead of
returning `"bar"`. -/
theorem memory_instance_independence_amended :
    Kvstore.New [("memory", Memory.memoryDriver)] "memory" "" ()
      = ((), .ok ⟨Memory.Conn.mk []⟩)
    ∧ (((Memory.Conn.mk []).Set "foo" [98, 97, 114]).1).Get "foo" = .ok [98, 97, 114]
    ∧ (Memory.Conn.mk []).Get "foo" = .error .notFound
    ∧ Memory.legacySharedAfterB.Get "foo" = .error .notFound := by
  refine ⟨rfl, ?_, rfl, rfl⟩
  simp [Memory.Conn.Set, Memory.Conn.Get, Kvstore.lookupMap_mapInsert_self]
